import Mathlib

/-!
Shallow embedding of the argument-resolution engine of the repository
(`src/argument.py` and `src/parser.py`), together with theorems settling the
frozen claims C1..C10 about it.

Conventions of the embedding:
* Python values flowing through the engine are modelled by `PyVal`
  (booleans, ints, strings and tuples); Python `None` is `Option.none` at the
  places where the source can hold `None` (token values, argument values,
  defaults).
* Python exceptions are modelled by `Except PyErr`; each named exception class
  of the source has a `PyErr` constructor.  `handle_error` always raises
  because the global test flag `_TEST` is `False` in production use.
* The mutable `_ParserNode` object (plus the module-global unsafe flag and the
  class-level token counters of `UnparsedArgument`) is modelled by `NodeState`,
  threaded through a state-and-error monad `M`.
* The `pytrie.SortedStringTrie` instances are modelled by association lists
  kept in ascending key order (`trieInsert` inserts in order), which gives the
  same iteration order as the sorted trie.  `values(prefix=p)` is
  `triePrefixValues` (keys that start with `p`), `iter_prefix_items(k)` is
  `triePrefixOfItems` (keys that are prefixes of `k`).
* Python object identity between an `Argument` and its `_ArgumentView`s is
  modelled by storing arguments in a heap (`NodeState.heap`) and letting both
  tries map names to a `Target` that carries the heap index of the backing
  argument.
-/

set_option autoImplicit false

/-- A Python runtime value as used by the engine: bool, int, str or a tuple. -/
inductive PyVal where
  | vbool (b : Bool)
  | vint (n : Int)
  | vstr (s : String)
  | vtuple (elems : List PyVal)

/-- The Python type constructors that can appear as an argument `dtype`. -/
inductive PyType where
  | tbool
  | tint
  | tstr
  | ttuple
deriving DecidableEq

/-- Python `type(v)` restricted to the modelled value universe. -/
def pytype : PyVal → PyType
  | .vbool _ => .tbool
  | .vint _ => .tint
  | .vstr _ => .tstr
  | .vtuple _ => .ttuple

/-- Python truthiness of a value. -/
def PyVal.truthy : PyVal → Bool
  | .vbool b => b
  | .vint n => n != 0
  | .vstr s => s != ""
  | .vtuple xs => !xs.isEmpty

/-- The exception classes raised by `src/argument.py` / `src/parser.py`
(plus the builtin Python exceptions the code can raise). -/
inductive PyErr where
  | formatError
  | keywordError
  | duplicateError
  | multipleMatchError
  | nargsError
  | parsedError
  | nameError
  | valueError
  | typeError
  | attributeError
  | keyError
  | assertionError
  | exceptionError
  | systemExit
deriving DecidableEq

/-- `Source` enumeration of `src/argument.py` (`CONFIG = 0`, `CLI = 1`). -/
inductive Source where
  | CONFIG
  | CLI
deriving DecidableEq

/-- The `Index` dataclass of `src/argument.py`: source plus per-source counter. -/
structure Index where
  source : Source
  idx : Nat
deriving DecidableEq

/-- The comparison generated by `@dataclass(order=True)` on `Index`: tuple
comparison `(source, idx) < (source, idx)`.  When the `source` fields are
equal the integer counters decide; when they differ Python falls back to
`Source.__lt__`, which a plain `Enum` does not define, so the comparison
raises `TypeError`. -/
def Index.lt (a b : Index) : Except PyErr Bool :=
  if a.source = b.source then .ok (decide (a.idx < b.idx)) else .error .typeError

/-- An unparsed token (`UnparsedArgument` / `UnparsedConfigArgument` of
`src/argument.py`): a dash-prefixed spelling, an optional value and the
sequence index stamped at construction. -/
structure UnparsedArgument where
  name : String
  value : Option PyVal
  idx : Index

/-- Character-list comparison by code point, as Python compares strings. -/
def charListLt : List Char → List Char → Bool
  | _, [] => false
  | [], _ :: _ => true
  | a :: as, b :: bs =>
    if a.toNat < b.toNat then true
    else if b.toNat < a.toNat then false
    else charListLt as bs

/-- String comparison by code points (the order `SortedStringTrie` sorts by). -/
def strLt (s t : String) : Bool := charListLt s.data t.data

/-- `s.startswith(p)` on strings. -/
def strStartsWith (s p : String) : Bool := p.data.isPrefixOf s.data

/-- Exact lookup in a (sorted) association list modelling a trie:
`trie[name]`, with `none` standing for `KeyError`. -/
def trieGet? {α : Type} : List (String × α) → String → Option α
  | [], _ => none
  | (k, v) :: rest, key => if key = k then some v else trieGet? rest key

/-- `trie[key] = v`: insert keeping keys in ascending order, replacing an
existing binding of the same key. -/
def trieInsert {α : Type} : List (String × α) → String → α → List (String × α)
  | [], key, v => [(key, v)]
  | (k, w) :: rest, key, v =>
    if strLt key k then (key, v) :: (k, w) :: rest
    else if key = k then (key, v) :: rest
    else (k, w) :: trieInsert rest key v

/-- `del trie[key]` (the caller checks presence first, as `del` raises
`KeyError` when the key is absent). -/
def trieDel {α : Type} (m : List (String × α)) (key : String) : List (String × α) :=
  m.filter (fun kv => kv.1 ≠ key)

/-- `trie.values(prefix=name)`: values of all keys that start with `name`,
in sorted key order. -/
def triePrefixValues {α : Type} (m : List (String × α)) (name : String) : List α :=
  (m.filter (fun kv => strStartsWith kv.1 name)).map Prod.snd

/-- `trie.iter_prefix_items(key)` of `pytrie`: the items whose keys are
prefixes of `key`, shortest first (for a sorted list of prefixes of one key
the sorted order is the length order). -/
def triePrefixOfItems {α : Type} (m : List (String × α)) (key : String) : List (String × α) :=
  m.filter (fun kv => strStartsWith key kv.1)

/-- `trie.values()`: all values in sorted key order. -/
def trieValues {α : Type} (m : List (String × α)) : List α := m.map Prod.snd

/-- The three name formats distinguished by `_check_format`. -/
inductive NameFormat where
  | full
  | short
  | plain
deriving DecidableEq

/-- `_check_format` of `src/argument.py`: `--x` is full, `-x` is short, `x`
is plain, `---x` raises `FormatError`. -/
def checkFormat (name : String) : Except PyErr NameFormat :=
  if strStartsWith name "--" && !(strStartsWith name "---") then .ok .full
  else if strStartsWith name "-" && !(strStartsWith name "--") then .ok .short
  else if !(strStartsWith name "-") then .ok .plain
  else .error .formatError

/-- `canonicalize` of `src/argument.py`: prepend `--` to a plain name. -/
def canonicalize (name : String) : Except PyErr String := do
  let fmt ← checkFormat name
  if fmt = .plain then pure ("--" ++ name) else pure name

/-- The `nargs` of an argument: a number or `'+'`. -/
inductive NArgs where
  | num (n : Nat)
  | plus
deriving DecidableEq

/-- Parse a decimal digit string (empty input is a `ValueError`). -/
def parseDigitsAux : List Char → Nat → Option Nat
  | [], acc => some acc
  | c :: cs, acc => if c.isDigit then parseDigitsAux cs (acc * 10 + (c.toNat - 48)) else none

/-- Parse a non-empty decimal digit string. -/
def parseDigits : List Char → Option Nat
  | [] => none
  | cs => parseDigitsAux cs 0

/-- Python `int(s)` on the strings the engine can see: optional surrounding
whitespace, optional sign, decimal digits; anything else raises `ValueError`
(modelled as `none`). -/
def pyParseInt (s : String) : Option Int :=
  let cs := (s.data.dropWhile Char.isWhitespace).reverse.dropWhile Char.isWhitespace |>.reverse
  match cs with
  | '-' :: rest => (parseDigits rest).map (fun n => -(n : Int))
  | '+' :: rest => (parseDigits rest).map (fun n => (n : Int))
  | rest => (parseDigits rest).map (fun n => (n : Int))

/-- Python `str(v)` for the scalar values the engine coerces; tuples are
rendered one level deep (nested tuples cannot be produced by the tokenizer or
the config path, so the inner placeholder is never reached). -/
def pyStr : PyVal → String
  | .vbool true => "True"
  | .vbool false => "False"
  | .vint n => toString n
  | .vstr s => s
  | .vtuple xs =>
    let item : PyVal → String
      | .vbool true => "True"
      | .vbool false => "False"
      | .vint n => toString n
      | .vstr s => "\x27" ++ s ++ "\x27"
      | .vtuple _ => "(...)"
    match xs with
    | [x] => "(" ++ item x ++ ",)"
    | _ => "(" ++ String.intercalate ", " (xs.map item) ++ ")"

/-- Calling a `dtype` constructor on one value: `bool(v)`, `int(v)`, `str(v)`
or `tuple(v)`, with the Python failure modes (`ValueError` for a bad int
literal, `TypeError` for `int` of a tuple or `tuple` of a non-sequence). -/
def pyCall (τ : PyType) (v : PyVal) : Except PyErr PyVal :=
  match τ, v with
  | .tbool, v => .ok (.vbool v.truthy)
  | .tint, .vbool b => .ok (.vint (if b then 1 else 0))
  | .tint, .vint n => .ok (.vint n)
  | .tint, .vstr s =>
    match pyParseInt s with
    | some n => .ok (.vint n)
    | none => .error .valueError
  | .tint, .vtuple _ => .error .typeError
  | .tstr, v => .ok (.vstr (pyStr v))
  | .ttuple, .vtuple xs => .ok (.vtuple xs)
  | .ttuple, .vstr s => .ok (.vtuple (s.data.map (fun c => .vstr (String.mk [c]))))
  | .ttuple, _ => .error .typeError

/-- Is the value a Python tuple? -/
def isTuple : PyVal → Bool
  | .vtuple _ => true
  | _ => false

/-- The arity stage of the `Argument.value` setter (`src/argument.py` lines
145-157): branch on `nargs`, wrapping a scalar for `'+'`, rejecting a tuple
for arity 1 (`FormatError`), a non-bool for arity 0 (`ValueError`) and a
wrong-length or non-tuple for fixed arity `n` (`FormatError`). -/
def arityCheck (n : NArgs) (v : PyVal) : Except PyErr PyVal :=
  match n with
  | .plus => .ok (if isTuple v then v else .vtuple [v])
  | .num 1 => if isTuple v then .error .formatError else .ok v
  | .num 0 => match v with
    | .vbool _ => .ok v
    | _ => .error .valueError
  | .num k => match v with
    | .vtuple xs => if xs.length = k then .ok v else .error .formatError
    | _ => .error .formatError

/-- Coerce through a `dtype` constructor, elementwise on tuples
(`src/argument.py` lines 159-163). -/
def coerceElems (τ : PyType) (v : PyVal) : Except PyErr PyVal :=
  match v with
  | .vtuple xs => do
    let ys ← xs.mapM (pyCall τ)
    pure (.vtuple ys)
  | v => pyCall τ v

/-- The `Argument` object of `src/argument.py`.  `viewNames` records the
`_views` list (name and fixed value of each created `_ArgumentView`, in
creation order); `adhocFlag` is the `unsafe` constructor argument. -/
structure Argument where
  full_name : String
  short_name : Option String
  default : Option PyVal
  dtype : Option PyType
  nargs : NArgs
  name : String
  adhocFlag : Bool
  value : Option PyVal
  last_idx : Option Index
  viewNames : List (String × PyVal)

/-- The `Argument.value` setter (`src/argument.py` lines 143-164): `None` is
stored unchecked; otherwise the arity stage runs, then the value is coerced
through `dtype` when one is set. -/
def argSetValue (a : Argument) (newValue : Option PyVal) : Except PyErr Argument :=
  match newValue with
  | none => .ok { a with value := none }
  | some v => do
    let v1 ← arityCheck a.nargs v
    match a.dtype with
    | some τ => do
      let w ← coerceElems τ v1
      pure { a with value := some w }
    | none => pure { a with value := some v1 }

/-- `Argument.__init__` (`src/argument.py` lines 82-119): format checks, the
reserved `no_` prefix check for booleans, `nargs or 1` then the bool override
to 0, setting the default through the value setter (with the declared dtype,
possibly `None`), and inferring `dtype` from the default's runtime type when
no dtype was declared. -/
def mkArgument (full : String) (short : Option String) (dflt : Option PyVal)
    (dtype : Option PyType) (nargs : Option NArgs) (adhoc : Bool) :
    Except PyErr Argument := do
  let fmtF ← checkFormat full
  if fmtF ≠ .full then throw .formatError
  match short with
  | some s => do
    let fmtS ← checkFormat s
    if fmtS ≠ .short then throw .formatError
  | none => pure ()
  if dtype = some .tbool then do
    if strStartsWith full "--no_" then throw .formatError
    match short with
    | some s => if strStartsWith s "-no_" then throw .formatError
    | none => pure ()
  let n0 : NArgs := match nargs with
    | none => .num 1
    | some (.num 0) => .num 1
    | some x => x
  let n1 : NArgs := if dtype = some .tbool then .num 0 else n0
  let a0 : Argument := {
    full_name := full, short_name := short, default := dflt, dtype := dtype,
    nargs := n1, name := String.mk (full.data.drop 2), adhocFlag := adhoc,
    value := none, last_idx := none, viewNames := [] }
  let a1 ← argSetValue a0 dflt
  match dflt, dtype with
  | some d, none => pure { a1 with dtype := some (pytype d) }
  | _, _ => pure a1

/-- Either an `Argument` in the heap or an `_ArgumentView` of it (name plus
fixed value, and the heap index of the backing argument).  Python's
identity-based `__eq__` between arguments and views becomes equality of the
backing heap index. -/
inductive Target where
  | arg (backing : Nat)
  | view (backing : Nat) (name : String) (fixed : PyVal)

/-- The heap index of the backing `Argument`. -/
def Target.backing : Target → Nat
  | .arg i => i
  | .view i _ _ => i

/-- The spelling the target answers to (`full_name` for an argument, the
view's own name for a view). -/
def Target.spelling (heap : List Argument) : Target → String
  | .arg i => match heap[i]? with
    | some a => a.full_name
    | none => ""
  | .view _ n _ => n

/-- The mutable state of one `_ParserNode`, together with the module-global
unsafe flag (`_ParserNode._unsafe`, here `adhocMode`) and the class-level
counters of `UnparsedArgument`/`UnparsedConfigArgument` (`cliIdx`/`cfgIdx`).
The bound `Registry` collaborator is modelled as a mapping from config name to
the flat name-to-value profile produced by `vars(cfg_cls())`, in attribute
insertion order. -/
structure NodeState where
  heap : List Argument
  args : List (String × Target)
  argViews : List (String × Target)
  kwds : List String
  parsed : Bool
  adhocMode : Bool
  cliUnparsed : List (String × UnparsedArgument)
  cliIdx : Nat
  cfgIdx : Nat
  registry : Option (List (String × List (String × PyVal)))

/-- The state-and-error monad the node operations run in. -/
def M (α : Type) : Type := NodeState → Except PyErr (α × NodeState)

/-- Monadic return for `M`. -/
def M.pure {α : Type} (a : α) : M α := fun st => .ok (a, st)

/-- Monadic bind for `M` (errors abort, like a raised Python exception). -/
def M.bind {α β : Type} (x : M α) (f : α → M β) : M β := fun st =>
  match x st with
  | .ok (a, st') => f a st'
  | .error e => .error e

instance : Monad M where
  pure := M.pure
  bind := M.bind

/-- Raise an exception. -/
def M.throw {α : Type} (e : PyErr) : M α := fun _ => .error e

/-- `try ... except`: run the handler on the error.  (The guarded blocks of
the source mutate no state before raising, so resuming from the entry state is
faithful.) -/
def M.tryCatch {α : Type} (x : M α) (h : PyErr → M α) : M α := fun st =>
  match x st with
  | .error e => h e st
  | ok => ok

instance : MonadExcept PyErr M where
  throw := M.throw
  tryCatch := M.tryCatch

/-- Read the node state. -/
def getS : M NodeState := fun st => .ok (st, st)

/-- Replace the node state. -/
def setS (st : NodeState) : M Unit := fun _ => .ok ((), st)

/-- Update the node state. -/
def modifyS (f : NodeState → NodeState) : M Unit := fun st => .ok ((), f st)

/-- Lift a pure `Except` computation into `M`. -/
def liftE {α : Type} (e : Except PyErr α) : M α := fun st =>
  match e with
  | .ok a => .ok (a, st)
  | .error err => .error err

/-- Read an argument object from the heap (an out-of-range index would be a
dangling reference, impossible for states built by the operations below). -/
def readArg (i : Nat) : M Argument := fun st =>
  match st.heap[i]? with
  | some a => .ok (a, st)
  | none => .error .attributeError

/-- Overwrite an argument object in the heap. -/
def writeArg (i : Nat) (a : Argument) : M Unit := fun st =>
  .ok ((), { st with heap := st.heap.set i a })

/-- Construct an `UnparsedArgument` (CLI) or `UnparsedConfigArgument`
(CONFIG): the constructor rejects a plain spelling (`raise Exception`) and
stamps the value with the class-level counter of its source, which it then
increments. -/
def newToken (src : Source) (name : String) (value : Option PyVal) : M UnparsedArgument := do
  let fmt ← liftE (checkFormat name)
  if fmt = .plain then throw .exceptionError
  let st ← getS
  match src with
  | .CLI => do
    setS { st with cliIdx := st.cliIdx + 1 }
    M.pure { name := name, value := value, idx := { source := .CLI, idx := st.cliIdx } }
  | .CONFIG => do
    setS { st with cfgIdx := st.cfgIdx + 1 }
    M.pure { name := name, value := value, idx := { source := .CONFIG, idx := st.cfgIdx } }

/-- `_ParserNode._get_argument_from_trie` (`src/parser.py` lines 167-184):
exact match first; otherwise prefix matches — more than one raises
`MultipleMatchError`, none raises `NameError` (degraded to `None` in unsafe
mode), exactly one is returned. -/
def get_argument_from_trie (adhocMode : Bool) (name : String)
    (trie : List (String × Target)) : Except PyErr (Option Target) :=
  match trieGet? trie name with
  | some t => .ok (some t)
  | none =>
    let ms := triePrefixValues trie name
    if ms.length > 1 then .error .multipleMatchError
    else match ms with
      | [] => if adhocMode then .ok none else .error .nameError
      | t :: _ => .ok (some t)

/-- `_ParserNode.get_argument` (`src/parser.py` lines 140-160): canonicalize,
try the view trie first (catching only `NameError`), fall back to the
argument trie; when a view matched, a distinct (non-identical-backing) match
in the argument trie is a `MultipleMatchError`. -/
def get_argument (name : String) (view_ok : Bool) : M (Option Target) := do
  let name ← liftE (canonicalize name)
  let st ← getS
  let a ← if view_ok then
      M.tryCatch (liftE (get_argument_from_trie st.adhocMode name st.argViews))
        (fun e => match e with
          | .nameError => M.pure none
          | _ => throw e)
    else M.pure none
  match a with
  | none => liftE (get_argument_from_trie st.adhocMode name st.args)
  | some t => do
    let aNormal ← M.tryCatch (liftE (get_argument_from_trie st.adhocMode name st.args))
      (fun e => match e with
        | .nameError => M.pure none
        | _ => throw e)
    match aNormal with
    | none => M.pure (some t)
    | some t2 =>
      if Target.backing t2 = Target.backing t then M.pure (some t)
      else throw .multipleMatchError

/-- The value `Argument.update` writes when it fires: a view writes its fixed
value into the backing argument (`use_this_view`), an argument writes the
token's value. -/
def updatePayload : Target → UnparsedArgument → Option PyVal
  | .view _ _ fixed, _ => some fixed
  | .arg _, u => u.value

/-- `Argument.update` (`src/argument.py` lines 135-141), called on the target
resolved for the token: fire only if no index was applied yet or the stored
index compares strictly below the token's (the comparison itself can raise,
see `Index.lt`); on firing, run the value setter on the backing argument and
record the token's index on it. -/
def updateTarget (t : Target) (u : UnparsedArgument) : M Unit := do
  let a ← readArg (Target.backing t)
  let proceed ← match a.last_idx with
    | none => M.pure true
    | some li => liftE (Index.lt li u.idx)
  if proceed then do
    let a2 ← liftE (argSetValue a (updatePayload t u))
    writeArg (Target.backing t) { a2 with last_idx := some u.idx }

/-- `_ParserNode._update_arg` (`src/parser.py` lines 186-195): update, then
`del self._cli_unparsed[un_arg.name]` (which raises `KeyError` when absent). -/
def update_arg (t : Target) (u : UnparsedArgument) : M Unit := do
  updateTarget t u
  let st ← getS
  match trieGet? st.cliUnparsed u.name with
  | some _ => setS { st with cliUnparsed := trieDel st.cliUnparsed u.name }
  | none => throw .keyError

/-- `_ParserNode._check_nargs` (`src/parser.py` lines 246-254). -/
def check_nargs (n : NArgs) (value : Option PyVal) : Bool :=
  match n with
  | .num 0 => value.isNone
  | .num 1 => match value with
    | some v => !isTuple v
    | none => false
  | .plus => match value with
    | some (.vtuple xs) => !xs.isEmpty
    | _ => true
  | .num k => match value with
    | some (.vtuple xs) => xs.length = k
    | _ => false

/-- `_ParserNode._parse_one_cli_arg` (`src/parser.py` lines 197-209): resolve
the token's name (quietly none in unsafe mode), validate the value shape
against the target's arity (`NArgsError` on mismatch), then update. -/
def parse_one_cli_arg (u : UnparsedArgument) : M (Option Target) := do
  let a ← get_argument u.name true
  match a with
  | none => M.pure none
  | some t => do
    let ad ← readArg (Target.backing t)
    if check_nargs ad.nargs u.value then do
      update_arg t u
      M.pure (some t)
    else throw .nargsError

/-- The loop body of `_ParserNode._parse_one_arg`: re-resolve each buffered
token by its own spelling (`double_check`), assert it has the same backing
argument, and update through that view. -/
def claimItems (t : Target) : List (String × UnparsedArgument) → M Unit
  | [] => M.pure ()
  | (_, u) :: rest => do
    let dc ← get_argument u.name true
    match dc with
    | none => throw .attributeError
    | some dct =>
      if Target.backing dct = Target.backing t then do
        update_arg dct u
        claimItems t rest
      else throw .assertionError

/-- `_ParserNode._parse_one_arg` (`src/parser.py` lines 211-244): resolve the
declared name; collect the buffered tokens whose spellings are prefixes of
the argument's spellings (all view names for a view, else full and short
name); none means no match, otherwise update with each and return the
target. -/
def parse_one_arg (name : String) : M (Option Target) := do
  let a ← get_argument name true
  match a with
  | none => M.pure none
  | some t => do
    let prefixes ← match t with
      | .view i _ _ => do
        let ad ← readArg i
        M.pure (ad.viewNames.map Prod.fst)
      | .arg i => do
        let ad ← readArg i
        M.pure ([ad.full_name] ++ (match ad.short_name with
          | some s => [s]
          | none => []))
    let st ← getS
    let items := prefixes.foldr (fun p acc => triePrefixOfItems st.cliUnparsed p ++ acc) []
    match items with
    | [] => M.pure none
    | _ :: _ => do
      claimItems t items
      M.pure (some t)

/-- `_ParserNode._parse_cfg_arg` (`src/parser.py` lines 256-264): when the
name resolves, assign the profile value directly through the value setter
(bypassing sequencing); otherwise buffer a CONFIG-sourced token under the
synthesized `--name` spelling (replacing any buffered token of that exact
spelling). -/
def parse_cfg_arg (name : String) (value : PyVal) : M Unit := do
  let a ← get_argument name true
  match a with
  | some t => do
    let ad ← readArg (Target.backing t)
    let ad2 ← liftE (argSetValue ad (some value))
    writeArg (Target.backing t) ad2
  | none => do
    let fullName := "--" ++ name
    let u ← newToken .CONFIG fullName (some value)
    modifyS fun st => { st with cliUnparsed := trieInsert st.cliUnparsed fullName u }

/-- `_ParserNode._check_keywords` (`src/parser.py` lines 93-96). -/
def check_keywords (name : String) : M Unit := do
  let st ← getS
  if st.kwds.contains name then throw .keywordError else M.pure ()

/-- `Argument.view` (`src/argument.py` lines 181-185): coerce the fixed value
through the declared dtype, append the view to the argument's `_views` list
and hand the view back. -/
def mkView (i : Nat) (name : String) (value : PyVal) : M Target := do
  let a ← readArg i
  match a.dtype with
  | some τ => do
    let v2 ← liftE (pyCall τ value)
    writeArg i { a with viewNames := a.viewNames ++ [(name, v2)] }
    M.pure (.view i name v2)
  | none => throw .typeError

/-- The boolean-view block of `add_argument` (`src/parser.py` lines 118-128):
positive and negative view for the full name, then for the short name when
present, each registered in the view trie as it is created. -/
def add_bool_views (i : Nat) (full : String) (short : Option String) : M Unit := do
  let v1 ← mkView i full (.vbool true)
  modifyS fun st => { st with argViews := trieInsert st.argViews full v1 }
  let negFull := "--no_" ++ String.mk (full.data.drop 2)
  let v2 ← mkView i negFull (.vbool false)
  modifyS fun st => { st with argViews := trieInsert st.argViews negFull v2 }
  match short with
  | some s => do
    let v3 ← mkView i s (.vbool true)
    modifyS fun st => { st with argViews := trieInsert st.argViews s v3 }
    let negShort := "-no_" ++ String.mk (s.data.drop 1)
    let v4 ← mkView i negShort (.vbool false)
    modifyS fun st => { st with argViews := trieInsert st.argViews negShort v4 }
  | none => M.pure ()

/-- `_ParserNode.add_argument` (`src/parser.py` lines 98-132): reject when
already parsed unless the global unsafe flag is up; keyword check unless
forced; construct the argument; duplicate check on both spellings; register
them; create boolean views; in unsafe-after-parse mode immediately resolve the
new argument against the buffered tokens. -/
def add_argument (full : String) (short : Option String) (dflt : Option PyVal)
    (dtype : Option PyType) (nargs : Option NArgs) (force : Bool) : M Target := do
  let st ← getS
  if st.parsed && !st.adhocMode then throw .parsedError
  let adhoc := st.parsed && st.adhocMode
  if !force then do
    check_keywords full
    match short with
    | some s => check_keywords s
    | none => M.pure ()
  let a ← liftE (mkArgument full short dflt dtype nargs adhoc)
  let st2 ← getS
  if (trieGet? st2.args full).isSome then throw .duplicateError
  match short with
  | some s =>
    if (trieGet? st2.args s).isSome then throw .duplicateError else M.pure ()
  | none => M.pure ()
  let i := st2.heap.length
  modifyS fun st => { st with heap := st.heap ++ [a], args := trieInsert st.args full (.arg i) }
  match short with
  | some s => modifyS fun st => { st with args := trieInsert st.args s (.arg i) }
  | none => M.pure ()
  if dtype = some .tbool then add_bool_views i full short
  if adhoc then do
    let _ ← parse_one_arg full
    M.pure (.arg i)
  else M.pure (.arg i)

/-- `_ParserNode.set_argument` (`src/parser.py` lines 162-165): emit the
warning (a pure side effect, not modelled), resolve with the default
`view_ok=True`, and assign the value directly through the setter. -/
def set_argument (name : String) (value : Option PyVal) : M Unit := do
  let a ← get_argument name true
  match a with
  | none => throw .attributeError
  | some t => do
    let ad ← readArg (Target.backing t)
    let ad2 ← liftE (argSetValue ad value)
    writeArg (Target.backing t) ad2

/-- The fresh state of `_ParserNode.__init__` before its two built-in
`add_argument` calls (trie fields empty, keyword set as in the source,
flags down, counters zero, no registry). -/
def initNode : NodeState := {
  heap := [], args := [], argViews := [],
  kwds := ["--unsafe", "-u", "--help", "-h", "--config", "-cfg", "--log_dir", "-ld", "--msg", "-m"],
  parsed := false, adhocMode := false, cliUnparsed := [],
  cliIdx := 0, cfgIdx := 0, registry := none }

/-- The two built-in declarations of `_ParserNode.__init__`:
`--unsafe` with `-u` (bool) and `--msg` with `-m` (str), both forced. -/
def node_init : M Unit := do
  let _ ← add_argument "--unsafe" (some "-u") none (some .tbool) none true
  let _ ← add_argument "--msg" (some "-m") none (some .tstr) none true
  M.pure ()

/-- `_ParserNode.add_cfg_registry` (`src/parser.py` lines 89-91): bind the
registry and force-declare `--config` with `-cfg` (str, default `''`). -/
def add_cfg_registry (reg : List (String × List (String × PyVal))) : M Unit := do
  modifyS fun st => { st with registry := some reg }
  let _ ← add_argument "--config" (some "-cfg") (some (.vstr "")) (some .tstr) none true
  M.pure ()

/-- One step of the tokenizer of `parse_args` (`src/parser.py` lines 288-292):
zero collected raw values is `None`, one is the scalar string, several are a
tuple of strings. -/
def mkTokVal : List String → Option PyVal
  | [] => none
  | [x] => some (.vstr x)
  | xs => some (.vtuple (xs.map PyVal.vstr))

/-- Right-fold step of the tokenizer scan: a dash-led element closes the
current token with the values collected so far; any other element joins the
pending value run. -/
def splitTokensAux (x : String) (acc : List String × List (String × Option PyVal)) :
    List String × List (String × Option PyVal) :=
  if strStartsWith x "-" then ([], (x, mkTokVal acc.1) :: acc.2)
  else (x :: acc.1, acc.2)

/-- The tokenizer scan of `parse_args` (`src/parser.py` lines 280-296): each
element starting with a dash begins a token; the following non-dash elements
are its raw values.  A leading run of non-dash elements still yields a token
whose name is the first element (the `UnparsedArgument` constructor then
rejects that plain spelling). -/
def splitTokens (argv : List String) : List (String × Option PyVal) :=
  let r := argv.foldr splitTokensAux ([], [])
  match r.1 with
  | [] => r.2
  | x :: rest => (x, mkTokVal rest) :: r.2

/-- Buffer the scanned tokens left to right: construct each
`UnparsedArgument` (stamping the CLI counter) and store it in `_cli_unparsed`
under its exact spelling, replacing any earlier token of that spelling. -/
def insertTokens : List (String × Option PyVal) → M Unit
  | [] => M.pure ()
  | (name, v) :: rest => do
    let u ← newToken .CLI name v
    modifyS fun st => { st with cliUnparsed := trieInsert st.cliUnparsed name u }
    insertTokens rest

/-- The resolution pass over the buffered CLI tokens (`src/parser.py` lines
319-321): iterate over a snapshot of `values()` (sorted key order). -/
def parse_cli_list : List UnparsedArgument → M Unit
  | [] => M.pure ()
  | u :: rest => do
    let _ ← parse_one_cli_arg u
    parse_cli_list rest

/-- The profile pass (`src/parser.py` lines 313-315): feed every
`(name, value)` pair of the configuration profile to `_parse_cfg_arg`. -/
def parse_cfg_list : List (String × PyVal) → M Unit
  | [] => M.pure ()
  | (n, v) :: rest => do
    parse_cfg_arg n v
    parse_cfg_list rest

/-- Project a value to the string the log-dir builder formats (non-strings
never reach it: `config` and `msg` are `str`-typed arguments). -/
def asStr : Option PyVal → Option String
  | some (.vstr s) => some s
  | _ => none

/-- Modelled from the source `get_log_dir` (`src/parser.py` lines 36-56): the
path joins a date directory and a `config`-`msg`-`timestamp` name, skipping
falsy components.  The wall clock and the retry-until-fresh directory
creation are external effects; the date and time components are modelled as
fixed placeholder strings (no claim depends on them). -/
def get_log_dir (config msg : Option String) : String :=
  let comp : Option String → List String := fun o => match o with
    | some c => if c = "" then [] else [c]
    | none => []
  "log\\MM-DD\\" ++ String.intercalate "-" (comp config ++ comp msg ++ ["HHMMSS"])

/-- `try_get_value` inside `parse_args` (`src/parser.py` lines 326-330):
the resolved value of a name, with `AttributeError` and `NameError` degraded
to `None`. -/
def try_get_value (name : String) : M (Option PyVal) :=
  M.tryCatch
    (do
      let a ← get_argument name true
      match a with
      | none => throw .attributeError
      | some t => do
        let ad ← readArg (Target.backing t)
        M.pure ad.value)
    (fun e => match e with
      | .attributeError => M.pure none
      | .nameError => M.pure none
      | _ => throw e)

/-- `_ParserNode.parse_args` (`src/parser.py` lines 266-334) up to the final
`self._parsed = True`: reject a second parse; tokenize argv into a fresh
buffer; short-circuit on `--help`/`-h`; retroactively resolve `--unsafe`/`-u`
and raise the global unsafe flag when either matched a token; when a registry
is bound, resolve `--config` (crashing with `AttributeError` when no such
token arrived, as `None.value` does), load the named profile (`KeyError` when
absent) and feed it to the profile pass; run the CLI pass over a snapshot of
the buffer; force-declare `--log_dir` with `-ld` and assign it the generated path. -/
def parse_args_core (argv : List String) : M Unit := do
  let st0 ← getS
  if st0.parsed then throw .parsedError
  modifyS fun st => { st with cliUnparsed := [] }
  insertTokens (splitTokens argv)
  if argv.contains "--help" || argv.contains "-h" then throw .systemExit
  let r1 ← parse_one_arg "--unsafe"
  let r2 ← parse_one_arg "-u"
  if r1.isSome || r2.isSome then
    modifyS fun st => { st with adhocMode := true }
  let st1 ← getS
  match st1.registry with
  | some reg => do
    let aCfg ← parse_one_arg "--config"
    match aCfg with
    | none => throw .attributeError
    | some t => do
      let ad ← readArg (Target.backing t)
      match ad.value with
      | some (.vstr cfgName) =>
        match trieGet? reg cfgName with
        | some profile => parse_cfg_list profile
        | none => throw .keyError
      | _ => throw .typeError
  | none => M.pure ()
  let st2 ← getS
  parse_cli_list (trieValues st2.cliUnparsed)
  let aLd ← add_argument "--log_dir" (some "-ld") none (some .tstr) none true
  let cfgV ← try_get_value "config"
  let msgV ← try_get_value "msg"
  let ad ← readArg (Target.backing aLd)
  let ad2 ← liftE (argSetValue ad (some (.vstr (get_log_dir (asStr cfgV) (asStr msgV)))))
  writeArg (Target.backing aLd) ad2

/-- `_ParserNode.parse_args`: the body above, then the node is marked
parsed. -/
def parse_args (argv : List String) : M Unit := do
  parse_args_core argv
  modifyS fun st => { st with parsed := true }

/-- The final resolved value of the argument registered under a spelling
(exact lookup in the argument trie, then the backing argument's value). -/
def resolvedValue (st : NodeState) (spelling : String) : Option PyVal :=
  match trieGet? st.args spelling with
  | some t =>
    match st.heap[Target.backing t]? with
    | some a => a.value
    | none => none
  | none => none

mutual

/-- Decidable equality on `PyVal` (written by hand since the nested `List`
occurrence defeats the deriving handler); used only to state and check
concrete executions. -/
def PyVal.decEq : (a b : PyVal) → Decidable (a = b)
  | .vbool x, .vbool y =>
    match Bool.decEq x y with
    | isTrue h => isTrue (h ▸ rfl)
    | isFalse h => isFalse (fun hh => h (PyVal.vbool.inj hh))
  | .vbool _, .vint _ => isFalse (fun h => PyVal.noConfusion h)
  | .vbool _, .vstr _ => isFalse (fun h => PyVal.noConfusion h)
  | .vbool _, .vtuple _ => isFalse (fun h => PyVal.noConfusion h)
  | .vint _, .vbool _ => isFalse (fun h => PyVal.noConfusion h)
  | .vint x, .vint y =>
    match Int.instDecidableEq x y with
    | isTrue h => isTrue (h ▸ rfl)
    | isFalse h => isFalse (fun hh => h (PyVal.vint.inj hh))
  | .vint _, .vstr _ => isFalse (fun h => PyVal.noConfusion h)
  | .vint _, .vtuple _ => isFalse (fun h => PyVal.noConfusion h)
  | .vstr _, .vbool _ => isFalse (fun h => PyVal.noConfusion h)
  | .vstr _, .vint _ => isFalse (fun h => PyVal.noConfusion h)
  | .vstr x, .vstr y =>
    match String.decEq x y with
    | isTrue h => isTrue (h ▸ rfl)
    | isFalse h => isFalse (fun hh => h (PyVal.vstr.inj hh))
  | .vstr _, .vtuple _ => isFalse (fun h => PyVal.noConfusion h)
  | .vtuple _, .vbool _ => isFalse (fun h => PyVal.noConfusion h)
  | .vtuple _, .vint _ => isFalse (fun h => PyVal.noConfusion h)
  | .vtuple _, .vstr _ => isFalse (fun h => PyVal.noConfusion h)
  | .vtuple xs, .vtuple ys =>
    match PyVal.decEqList xs ys with
    | isTrue h => isTrue (h ▸ rfl)
    | isFalse h => isFalse (fun hh => h (PyVal.vtuple.inj hh))

/-- Decidable equality on lists of `PyVal`. -/
def PyVal.decEqList : (xs ys : List PyVal) → Decidable (xs = ys)
  | [], [] => isTrue rfl
  | [], _ :: _ => isFalse (fun h => List.noConfusion h)
  | _ :: _, [] => isFalse (fun h => List.noConfusion h)
  | x :: xs, y :: ys =>
    match PyVal.decEq x y with
    | isFalse h1 => isFalse (fun hh => h1 (List.cons.inj hh).1)
    | isTrue h1 =>
      match PyVal.decEqList xs ys with
      | isTrue h2 => isTrue (h1 ▸ h2 ▸ rfl)
      | isFalse h2 => isFalse (fun hh => h2 (List.cons.inj hh).2)

end

instance : DecidableEq PyVal := PyVal.decEq

instance {ε α : Type} [DecidableEq ε] [DecidableEq α] : DecidableEq (Except ε α) := fun x y =>
  match x, y with
  | .ok v, .ok w =>
    match decEq v w with
    | isTrue h => isTrue (h ▸ rfl)
    | isFalse h => isFalse (fun hh => h (Except.ok.inj hh))
  | .error v, .error w =>
    match decEq v w with
    | isTrue h => isTrue (h ▸ rfl)
    | isFalse h => isFalse (fun hh => h (Except.error.inj hh))
  | .ok _, .error _ => isFalse (fun h => Except.noConfusion h)
  | .error _, .ok _ => isFalse (fun h => Except.noConfusion h)

deriving instance DecidableEq for UnparsedArgument
deriving instance DecidableEq for Target
deriving instance DecidableEq for Argument
deriving instance DecidableEq for NodeState

/-!  Concrete scenario definitions used by the claim theorems. -/

/-- C1, ad-hoc scenario: unsafe mode on, the profile `main = {x: 1}` bound,
CLI tokens `--x 2`; `--x` is declared only after `parse_args` (legal under
unsafe mode) and the run reports its resolved value. -/
def c1_adhoc_run : Except PyErr (Option PyVal) :=
  (((do
    node_init
    add_cfg_registry [("main", [("x", .vint 1)])]
    parse_args ["--unsafe", "--config", "main", "--x", "2"]
    let _ ← add_argument "--x" none none (some .tint) none false
    let st ← getS
    M.pure (resolvedValue st "--x")) : M (Option PyVal)) initNode).map Prod.fst

/-- C1, declared scenario: `--x` (int, default 0) declared before
`parse_args`, profile `main = {x: profileVal}` bound, argv as given; the run
reports the resolved value of `--x`. -/
def c1_declared_run (argv : List String) (profileVal : PyVal) : Except PyErr (Option PyVal) :=
  (((do
    node_init
    add_cfg_registry [("main", [("x", profileVal)])]
    let _ ← add_argument "--x" none (some (.vint 0)) (some .tint) none false
    parse_args argv
    let st ← getS
    M.pure (resolvedValue st "--x")) : M (Option PyVal)) initNode).map Prod.fst

/-- C3 counterexample state: a heap holding one scalar argument whose last
applied index is CONFIG-sourced. -/
def c3_arg : Argument := {
  full_name := "--x", short_name := none, default := none, dtype := none,
  nargs := .num 1, name := "x", adhocFlag := false, value := some (.vint 1),
  last_idx := some { source := .CONFIG, idx := 0 }, viewNames := [] }

/-- C3 counterexample node state. -/
def c3_state : NodeState := { initNode with heap := [c3_arg] }

/-- C3 counterexample token: CLI-sourced, targeting that argument. -/
def c3_token : UnparsedArgument :=
  { name := "--x", value := some (.vstr "5"), idx := { source := .CLI, idx := 0 } }

/-- C3 witness state: the same argument but with a CLI-sourced last index. -/
def c3w_arg : Argument := { c3_arg with last_idx := some { source := .CLI, idx := 0 } }

/-- C3 witness node state. -/
def c3w_state : NodeState := { initNode with heap := [c3w_arg] }

/-- C3 witness token: a later CLI token. -/
def c3w_token : UnparsedArgument :=
  { name := "--x", value := some (.vstr "5"), idx := { source := .CLI, idx := 3 } }

/-- C3 witness: what the value setter produces for the witness payload. -/
def c3w_argset : Argument :=
  match argSetValue c3w_arg (some (.vstr "5")) with
  | .ok a => a
  | .error _ => c3w_arg

/-- C4 scenario: boolean `--flag` with default `false`, CLI tokens
`--flag` then `--no_flag`; the run reports the resolved value of `--flag`. -/
def c4_run : Except PyErr (Option PyVal) :=
  (((do
    node_init
    let _ ← add_argument "--flag" none (some (.vbool false)) (some .tbool) none false
    parse_args ["--flag", "--no_flag"]
    let st ← getS
    M.pure (resolvedValue st "--flag")) : M (Option PyVal)) initNode).map Prod.fst

/-- C6 scenario argument: `--opt` declared with dtype `int` and (implicit)
arity 1. -/
def c6_arg : Argument :=
  match mkArgument "--opt" none none (some .tint) none false with
  | .ok a => a
  | .error _ => c3_arg

/-- C7 / C8 / C10 base: the node state right after `_ParserNode.__init__`
(the two built-in declarations applied to the fresh state). -/
def node0 : NodeState :=
  match node_init initNode with
  | .ok (_, s) => s
  | .error _ => initNode

/-- C7: the state after `parse_args` on an empty command line. -/
def node1 : NodeState :=
  match parse_args [] node0 with
  | .ok (_, s) => s
  | .error _ => node0

/-- C8: the node with a boolean `--flag` (default `false`) declared, before
any parsing. -/
def c8_pre : NodeState :=
  match (((do
    let _ ← add_argument "--flag" none (some (.vbool false)) (some .tbool) none false
    M.pure ()) : M Unit)) node0 with
  | .ok (_, s) => s
  | .error _ => node0

/-- C8: the `--flag` argument object sitting in `c8_pre`'s heap (index 2). -/
def c8_arg : Argument :=
  match c8_pre.heap[2]? with
  | some a => a
  | none => c3_arg

/-- C8: the result of assigning `True` to that argument through the value
setter. -/
def c8_argset : Argument :=
  match argSetValue c8_arg (some (.vbool true)) with
  | .ok a => a
  | .error _ => c8_arg

/-- C8 counterexample run: `set_argument("--no_flag", True)` on `c8_pre`,
reporting the resolved value of `--flag`. -/
def c8_run : Except PyErr (Option PyVal) :=
  (((do
    set_argument "--no_flag" (some (.vbool true))
    let st ← getS
    M.pure (resolvedValue st "--flag")) : M (Option PyVal)) c8_pre).map Prod.fst

/-- C9 witness argument: `--x` declared with default `3` and no dtype. -/
def c9_arg : Argument :=
  match mkArgument "--x" none (some (.vint 3)) none none false with
  | .ok a => a
  | .error _ => c3_arg

/-- C9 witness: the result of assigning the string `"7"` to it. -/
def c9_argset : Argument :=
  match argSetValue c9_arg (some (.vstr "7")) with
  | .ok a => a
  | .error _ => c9_arg

/-- The tokens of a scanned argv with their CLI sequence indices, starting at
counter value `c` (the pure mirror of what `insertTokens` constructs). -/
def cliIndexed (c : Nat) : List (String × Option PyVal) → List UnparsedArgument
  | [] => []
  | (n, v) :: rest =>
    { name := n, value := v, idx := { source := .CLI, idx := c } } :: cliIndexed (c + 1) rest

/-- The token of the last occurrence of a spelling in a token list. -/
def lastToken (name : String) : List UnparsedArgument → Option UnparsedArgument
  | [] => none
  | u :: rest =>
    match lastToken name rest with
    | some w => some w
    | none => if u.name = name then some u else none

/-- C10 witness: the buffer state after tokenizing `--a 1 --a 2` from
`node0` (whose buffer is empty). -/
def c10_state : NodeState :=
  match insertTokens (splitTokens ["--a", "1", "--a", "2"]) node0 with
  | .ok (_, s) => s
  | .error _ => node0

/-- C1 scenario for the amended mechanism witness: registry bound and `--x`
(int, default 0) declared, not yet parsed. -/
def c1w_pre : NodeState :=
  match (((do
    add_cfg_registry [("main", [("x", .vint 1)])]
    let _ ← add_argument "--x" none (some (.vint 0)) (some .tint) none false
    M.pure ()) : M Unit)) node0 with
  | .ok (_, s) => s
  | .error _ => node0

/-- The declared `--x` argument in `c1w_pre` (heap index 3). -/
def c1w_arg : Argument :=
  match c1w_pre.heap[3]? with
  | some a => a
  | none => c3_arg

/-- The result of assigning the profile value `1` to it. -/
def c1w_argset : Argument :=
  match argSetValue c1w_arg (some (.vint 1)) with
  | .ok a => a
  | .error _ => c1w_arg

/-! Helper lemmas (shared). -/

theorem trieGet?_cons {α : Type} (k : String) (v : α) (m : List (String × α)) (key : String) :
    trieGet? ((k, v) :: m) key = if key = k then some v else trieGet? m key := rfl

theorem trieGet?_insert {α : Type} (m : List (String × α)) (k : String) (v : α) (key : String) :
    trieGet? (trieInsert m k v) key = if key = k then some v else trieGet? m key := by
  induction m with
  | nil => rfl
  | cons hd tl ih =>
    obtain ⟨k', w⟩ := hd
    simp only [trieInsert]
    split
    · rfl
    · split
      · next heq =>
        subst heq
        rw [trieGet?_cons, trieGet?_cons]
        by_cases hk : key = k <;> simp [hk]
      · next hlt hne =>
        have hne' : ¬ k' = k := fun h => hne h.symm
        rw [trieGet?_cons, ih, trieGet?_cons]
        by_cases hk : key = k <;> by_cases hk' : key = k' <;> simp [hk, hk', hne, hne']

theorem argSetValue_ok_last_idx (a : Argument) (v : Option PyVal) (a' : Argument)
    (h : argSetValue a v = .ok a') : a'.last_idx = a.last_idx := by
  cases v with
  | none =>
    simp only [argSetValue] at h
    injection h with h2
    subst h2
    rfl
  | some w =>
    simp only [argSetValue, bind, Except.bind] at h
    cases hac : arityCheck a.nargs w with
    | error e => simp [hac] at h
    | ok v1 =>
      simp only [hac] at h
      cases hd : a.dtype with
      | none =>
        simp only [hd, pure, Except.pure] at h
        injection h with h2
        subst h2
        rfl
      | some τ =>
        simp only [hd] at h
        cases hc : coerceElems τ v1 with
        | error e => simp [hc] at h
        | ok w2 =>
          simp only [hc, pure, Except.pure] at h
          injection h with h2
          subst h2
          rfl

theorem argSetValue_ok_coerce (a : Argument) (τ : PyType) (hd : a.dtype = some τ)
    (w : PyVal) (a' : Argument) (h : argSetValue a (some w) = .ok a') :
    Except.map Option.some ((arityCheck a.nargs w).bind (coerceElems τ)) = .ok a'.value := by
  simp only [argSetValue, bind, Except.bind, hd] at h
  cases hac : arityCheck a.nargs w with
  | error e => simp [hac] at h
  | ok v1 =>
    simp only [hac] at h
    cases hc : coerceElems τ v1 with
    | error e => simp [hc] at h
    | ok w2 =>
      simp only [hc, pure, Except.pure] at h
      injection h with h2
      subst h2
      simp [Except.bind, hac, hc, Except.map]

/-! Claim theorems. -/

/-- C2 (code bug): the claim — and the spec — demand a defined, total
ordering with every CONFIG-sourced `Index` strictly below every CLI-sourced
one.  The generated dataclass comparison instead raises `TypeError` whenever
the two sources differ, because the plain `Source` enum supports no `<`:
this theorem evaluates the embedded comparison on every cross-source pair. -/
theorem c2_cross_source_comparison (i j : Nat) :
    Index.lt { source := .CONFIG, idx := i } { source := .CLI, idx := j } = .error .typeError := rfl

/-- C4: declaring boolean `--flag` with default `false` and parsing the CLI
token sequence `--flag --no_flag` (in that order) resolves `flag` to
`false` (last-write-wins inside the CLI source). -/
theorem c4_flag_then_no_flag : c4_run = .ok (some (.vbool false)) := by decide!

/-- C5: `_get_argument_from_trie` — an exact match is returned even when the
query is also a proper prefix of other registered spellings; with no exact
match, two or more prefix matches raise `MultipleMatchError`; zero prefix
matches raise `NameError` in safe mode and return no match in unsafe mode;
exactly one prefix match is returned. -/
theorem c5_trie_lookup (trie : List (String × Target)) (name : String) (adhocMode : Bool) :
    (∀ t, trieGet? trie name = some t →
      get_argument_from_trie adhocMode name trie = .ok (some t))
  ∧ (trieGet? trie name = none → 2 ≤ (triePrefixValues trie name).length →
      get_argument_from_trie adhocMode name trie = .error .multipleMatchError)
  ∧ (trieGet? trie name = none → triePrefixValues trie name = [] →
      get_argument_from_trie adhocMode name trie =
        (if adhocMode then .ok none else .error .nameError))
  ∧ (∀ t, trieGet? trie name = none → triePrefixValues trie name = [t] →
      get_argument_from_trie adhocMode name trie = .ok (some t)) := by
  refine ⟨?_, ?_, ?_, ?_⟩
  · intro t h
    simp [get_argument_from_trie, h]
  · intro h hlen
    simp only [get_argument_from_trie, h]
    rw [if_pos]
    omega
  · intro h hms
    simp [get_argument_from_trie, h, hms]
  · intro t h hms
    simp [get_argument_from_trie, h, hms]

/-- C5 witness: on the concrete trie `{--flag, --flagx}` the exact query
`--flag` returns its own target although it is also a prefix of `--flagx`. -/
theorem c5_trie_lookup_witness :
    get_argument_from_trie false "--flag" [("--flag", .arg 0), ("--flagx", .arg 1)]
      = .ok (some (.arg 0)) :=
  (c5_trie_lookup [("--flag", .arg 0), ("--flagx", .arg 1)] "--flag" false).1 (.arg 0) rfl

/-- C6 counterexample: assigning a tuple to the arity-1 argument `c6_arg`
raises `FormatError` (`src/argument.py` line 151), not the `NArgsError` the
claim names. -/
theorem c6_tuple_error_kind :
    argSetValue c6_arg (some (.vtuple [.vstr "1", .vstr "2"])) = .error .formatError
  ∧ argSetValue c6_arg (some (.vtuple [.vstr "1", .vstr "2"])) ≠ .error .nargsError := by
  decide!

/-- C6 amended: for an argument of arity 1 with a declared type, assigning a
non-tuple value stores that value coerced through the type constructor (so
reading it back yields the coerced scalar), and assigning any tuple fails
with `FormatError`. -/
theorem c6_arity_one (a : Argument) (τ : PyType) (hn : a.nargs = .num 1)
    (hd : a.dtype = some τ) :
    (∀ v w, isTuple v = false → pyCall τ v = .ok w →
      argSetValue a (some v) = .ok { a with value := some w })
  ∧ (∀ xs, argSetValue a (some (.vtuple xs)) = .error .formatError) := by
  constructor
  · intro v w hv hw
    have hc : coerceElems τ v = .ok w := by
      cases v <;> simp_all [coerceElems, isTuple]
    simp [argSetValue, arityCheck, hn, hd, hv, hc, bind, Except.bind, pure, Except.pure]
  · intro xs
    simp [argSetValue, arityCheck, hn, isTuple, bind, Except.bind]

/-- C6 witness: the amended behaviour evaluated on `c6_arg` with the scalar
string `"5"` (stored as the int `5`). -/
theorem c6_arity_one_witness :
    argSetValue c6_arg (some (.vstr "5")) = .ok { c6_arg with value := some (.vint 5) }
  ∧ argSetValue c6_arg (some (.vtuple [.vstr "1"])) = .error .formatError :=
  ⟨(c6_arity_one c6_arg .tint (by decide!) (by decide!)).1 (.vstr "5") (.vint 5) (by decide!)
      (by decide!),
   (c6_arity_one c6_arg .tint (by decide!) (by decide!)).2 [.vstr "1"]⟩

theorem mbind_def {α β : Type} (x : M α) (f : α → M β) : x >>= f = M.bind x f := rfl

theorem mpure_def {α : Type} (a : α) : (pure a : M α) = M.pure a := rfl

theorem mthrow_def {α : Type} (e : PyErr) : (throw e : M α) = M.throw e := rfl

/-- C3 counterexample: an argument whose last applied index is CONFIG-sourced
receives a CLI-sourced token.  Under the claimed ordering the token's index is
strictly greater, so the claim says the value is written; the code instead
raises `TypeError` from the cross-source index comparison, so `update`
neither writes nor leaves the argument unchanged. -/
theorem c3_cross_source_update :
    updateTarget (.arg 0) c3_token c3_state = .error .typeError := by decide!

/-- C3 amended: `update` writes the payload (the token value, or the view's
fixed value through a view) exactly when no index was applied yet, or the
stored and incoming indices come from the same source and the stored counter
is strictly smaller; on a write the token's index is recorded.  When both
indices exist and their sources differ, the comparison raises `TypeError`
instead (see the counterexample), which is the only departure from the
claim. -/
theorem c3_update_guard (st : NodeState) (t : Target) (u : UnparsedArgument) (a a2 : Argument)
    (ha : st.heap[Target.backing t]? = some a)
    (hset : argSetValue a (updatePayload t u) = .ok a2) :
    (a.last_idx = none →
      updateTarget t u st =
        .ok ((), { st with
          heap := st.heap.set (Target.backing t) { a2 with last_idx := some u.idx } }))
  ∧ (∀ li, a.last_idx = some li → li.source = u.idx.source →
      (li.idx < u.idx.idx →
        updateTarget t u st =
          .ok ((), { st with
            heap := st.heap.set (Target.backing t) { a2 with last_idx := some u.idx } }))
    ∧ (¬ li.idx < u.idx.idx → updateTarget t u st = .ok ((), st))) := by
  refine ⟨?_, ?_⟩
  · intro hli
    simp [updateTarget, mbind_def, mpure_def, M.bind, M.pure, readArg, ha, hli, liftE, hset,
      writeArg]
  · intro li hli hsrc
    constructor
    · intro hlt
      simp [updateTarget, mbind_def, mpure_def, M.bind, M.pure, readArg, ha, hli, liftE,
        Index.lt, hsrc, hlt, hset, writeArg]
    · intro hlt
      simp [updateTarget, mbind_def, mpure_def, M.bind, M.pure, readArg, ha, hli, liftE,
        Index.lt, hsrc, hlt, writeArg]

/-- C3 witness: the amended guard evaluated on a same-source pair — stored
index (CLI, 0), incoming token (CLI, 3) — fires and records the token's
index. -/
theorem c3_update_guard_witness :
    updateTarget (.arg 0) c3w_token c3w_state =
      .ok ((), { c3w_state with
        heap := c3w_state.heap.set 0 { c3w_argset with last_idx := some c3w_token.idx } }) :=
  (((c3_update_guard c3w_state (.arg 0) c3w_token c3w_arg c3w_argset (by decide!)
      (by decide!)).2 { source := .CLI, idx := 0 } (by decide!) rfl).1 (by decide))

/-- C8 counterexample: on the node `c8_pre` the query `--no_flag` resolves to
an argument view, and `set_argument("--no_flag", True)` nevertheless succeeds
and overwrites the backing `--flag` argument to `true` — a view-resolving
name is a perfectly valid mutation target (the claim says it is not). -/
theorem c8_view_is_mutable :
    (get_argument "--no_flag" true c8_pre).map Prod.fst
        = .ok (some (.view 2 "--no_flag" (.vbool false)))
  ∧ c8_run = .ok (some (.vbool true)) := by decide!

/-- C8 amended: `set_argument` resolves the name exactly like `get_argument`
with views allowed (a view is a valid target and the write lands on its
backing argument), then overwrites the resolved argument's value directly
through the value setter: the last-applied sequence index is neither
consulted nor updated. -/
theorem c8_set_argument_bypasses_sequencing (st : NodeState) (name : String) (v : PyVal)
    (t : Target) (a a2 : Argument)
    (hres : get_argument name true st = .ok (some t, st))
    (ha : st.heap[Target.backing t]? = some a)
    (hset : argSetValue a (some v) = .ok a2) :
    set_argument name (some v) st = .ok ((), { st with heap := st.heap.set (Target.backing t) a2 })
  ∧ a2.last_idx = a.last_idx := by
  constructor
  · simp [set_argument, mbind_def, M.bind, hres, readArg, ha, liftE, hset, writeArg]
  · exact argSetValue_ok_last_idx a (some v) a2 hset

/-- C8 witness: the amended behaviour evaluated on `c8_pre` with the view
name `--no_flag`: the write lands on the backing `--flag` argument and its
last-applied index (`None`) is untouched. -/
theorem c8_set_argument_witness :
    set_argument "--no_flag" (some (.vbool true)) c8_pre
        = .ok ((), { c8_pre with heap := c8_pre.heap.set 2 c8_argset })
  ∧ c8_argset.last_idx = c8_arg.last_idx :=
  c8_set_argument_bypasses_sequencing c8_pre "--no_flag" (.vbool true)
    (.view 2 "--no_flag" (.vbool false)) c8_arg c8_argset (by decide!) (by decide!) (by decide!)

/-- C9: an `Argument` constructed with a non-`None` default and no declared
dtype gets the runtime type of the default as its dtype, and every later
successful value assignment stores the (arity-adjusted) value coerced
elementwise through that inferred type constructor. -/
theorem c9_dtype_inference (full : String) (short : Option String) (d : PyVal)
    (nargs : Option NArgs) (adhoc : Bool) (a : Argument)
    (h : mkArgument full short (some d) none nargs adhoc = .ok a) :
    a.dtype = some (pytype d)
  ∧ ∀ v a', argSetValue a (some v) = .ok a' →
      Except.map Option.some ((arityCheck a.nargs v).bind (coerceElems (pytype d)))
        = .ok a'.value := by
  have hdt : a.dtype = some (pytype d) := by
    unfold mkArgument at h
    simp only [bind, Except.bind, pure, Except.pure] at h
    repeat' split at h
    all_goals first
      | (simp at h; done)
      | (injection h with h2; subst h2; rfl)
  exact ⟨hdt, fun v a' hset => argSetValue_ok_coerce a (pytype d) hdt v a' hset⟩

/-- C9 witness: `--x` declared with default `3` and no dtype infers `int`,
and assigning the string `"7"` stores the int `7`. -/
theorem c9_dtype_inference_witness :
    c9_arg.dtype = some .tint
  ∧ Except.map Option.some ((arityCheck c9_arg.nargs (.vstr "7")).bind (coerceElems .tint))
      = .ok c9_argset.value :=
  ⟨(c9_dtype_inference "--x" none (.vint 3) none false c9_arg (by decide!)).1,
   (c9_dtype_inference "--x" none (.vint 3) none false c9_arg (by decide!)).2 (.vstr "7")
     c9_argset (by decide!)⟩

/-- The one-step behaviour of `insertTokens` on a scanned token. -/
theorem insertTokens_cons_run (n : String) (v : Option PyVal)
    (rest : List (String × Option PyVal)) (st : NodeState) :
    insertTokens ((n, v) :: rest) st =
      (match checkFormat n with
        | .error e => .error e
        | .ok .plain => .error .exceptionError
        | .ok _ =>
          insertTokens rest
            { st with
              cliIdx := st.cliIdx + 1,
              cliUnparsed := trieInsert st.cliUnparsed n
                { name := n, value := v, idx := { source := .CLI, idx := st.cliIdx } } }) := by
  cases hf : checkFormat n with
  | error e =>
    simp [insertTokens, newToken, mbind_def, M.bind, liftE, hf]
  | ok fmt =>
    cases fmt <;>
      simp [insertTokens, newToken, mbind_def, M.bind, mpure_def, M.pure, mthrow_def, M.throw,
        liftE, hf, getS, setS, modifyS]

/-- C10 helper: the buffer after inserting a scanned token list, relative to
the buffer and CLI counter at entry. -/
theorem insertTokens_buffer (ts : List (String × Option PyVal)) (st st' : NodeState)
    (h : insertTokens ts st = .ok ((), st')) (name : String) :
    trieGet? st'.cliUnparsed name =
      (match lastToken name (cliIndexed st.cliIdx ts) with
        | some u => some u
        | none => trieGet? st.cliUnparsed name) := by
  induction ts generalizing st with
  | nil =>
    simp only [insertTokens, M.pure] at h
    injection h with h2
    injection h2 with h3 h4
    subst h4
    rfl
  | cons hd rest ih =>
    obtain ⟨n, v⟩ := hd
    rw [insertTokens_cons_run] at h
    cases hf : checkFormat n with
    | error e => simp [hf] at h
    | ok fmt =>
      simp only [hf] at h
      cases fmt with
      | plain => simp at h
      | full =>
        have ihh := ih _ h
        rw [ihh]
        simp only [cliIndexed, lastToken]
        cases hl : lastToken name (cliIndexed (st.cliIdx + 1) rest) with
        | some w => simp
        | none =>
          simp only [trieGet?_insert]
          by_cases hn : name = n
          · simp [hn]
          · simp [hn, show ¬ n = name from fun hc => hn hc.symm]
      | short =>
        have ihh := ih _ h
        rw [ihh]
        simp only [cliIndexed, lastToken]
        cases hl : lastToken name (cliIndexed (st.cliIdx + 1) rest) with
        | some w => simp
        | none =>
          simp only [trieGet?_insert]
          by_cases hn : name = n
          · simp [hn]
          · simp [hn, show ¬ n = name from fun hc => hn hc.symm]

/-- C10: tokenization buffers CLI tokens under their exact spelling — after a
successful tokenize pass from an empty buffer, the buffer maps each spelling
to exactly the token built from its last occurrence in argv (value and
sequence index included), so resolution sees at most one buffered token per
spelling. -/
theorem c10_last_occurrence_wins (argv : List String) (st st' : NodeState)
    (hbuf : st.cliUnparsed = []) (h : insertTokens (splitTokens argv) st = .ok ((), st'))
    (name : String) :
    trieGet? st'.cliUnparsed name = lastToken name (cliIndexed st.cliIdx (splitTokens argv)) := by
  rw [insertTokens_buffer (splitTokens argv) st st' h name]
  cases lastToken name (cliIndexed st.cliIdx (splitTokens argv)) with
  | some u => rfl
  | none => simp [hbuf, trieGet?]

/-- C10 witness: tokenizing `--a 1 --a 2` buffers a single `--a` token, the
one built from the second occurrence (value `"2"`, counter 1). -/
theorem c10_last_occurrence_witness :
    trieGet? c10_state.cliUnparsed "--a"
      = lastToken "--a" (cliIndexed node0.cliIdx (splitTokens ["--a", "1", "--a", "2"]))
  ∧ trieGet? c10_state.cliUnparsed "--a"
      = some { name := "--a", value := some (.vstr "2"), idx := { source := .CLI, idx := 1 } } :=
  ⟨c10_last_occurrence_wins ["--a", "1", "--a", "2"] node0 c10_state (by decide!) (by decide!)
      "--a",
   by decide!⟩

theorem mbind_throw {α β : Type} (e : PyErr) (f : α → M β) (st : NodeState) :
    M.bind (M.throw e) f st = .error e := rfl

/-- C7: a successful `parse_args` marks the node parsed; afterwards
`add_argument` fails with `ParsedError` whenever the global unsafe flag is
down, and a second `parse_args` fails with `ParsedError` unconditionally. -/
theorem c7_parsed_locks (argv : List String) (st st' : NodeState)
    (h : parse_args argv st = .ok ((), st')) :
    st'.parsed = true
  ∧ (st'.adhocMode = false →
      ∀ full short dflt dtype nargs force,
        add_argument full short dflt dtype nargs force st' = .error .parsedError)
  ∧ (∀ argv2, parse_args argv2 st' = .error .parsedError) := by
  have hcore : ∃ s2, parse_args_core argv st = .ok ((), s2)
      ∧ st' = { s2 with parsed := true } := by
    simp only [parse_args, mbind_def, M.bind, modifyS] at h
    cases hc : parse_args_core argv st with
    | error e => simp [hc] at h
    | ok p =>
      obtain ⟨u, s2⟩ := p
      simp only [hc] at h
      injection h with h2
      injection h2 with h3 h4
      exact ⟨s2, rfl, h4.symm⟩
  obtain ⟨s2, hc, rfl⟩ := hcore
  refine ⟨rfl, ?_, fun argv2 => rfl⟩
  intro hA full short dflt dtype nargs force
  simp only [add_argument, mbind_def, M.bind, getS] at hA ⊢
  simp [hA, mthrow_def, M.throw, mbind_throw]

/-- C7 witness: the lock evaluated on the concrete node `node1` obtained by
parsing an empty command line on a fresh node. -/
theorem c7_parsed_locks_witness :
    node1.parsed = true
  ∧ add_argument "--y" none none none none false node1 = .error .parsedError
  ∧ parse_args [] node1 = .error .parsedError :=
  ⟨(c7_parsed_locks [] node0 node1 (by decide!)).1,
   (c7_parsed_locks [] node0 node1 (by decide!)).2.1 (by decide!) "--y" none none none none
     false,
   (c7_parsed_locks [] node0 node1 (by decide!)).2.2 []⟩

/-- C1 counterexample: unsafe mode, profile `main = {x: 1}`, CLI `--x 2`,
with `--x` declared only after `parse_args`.  The profile pass buffers its
token under the synthesized spelling `--x`, which *replaces* the buffered CLI
token of the same spelling, so the retroactive binding hands the argument the
CONFIG value `1`, not the CLI value `2` the claim demands. -/
theorem c1_adhoc_config_wins :
    c1_adhoc_run = .ok (some (.vint 1)) ∧ c1_adhoc_run ≠ .ok (some (.vint 2)) := by decide!

/-- C1 amended: for an argument declared before `parse_args`, a
configuration-profile value is assigned directly through the value setter
without consulting or updating the last-applied sequence index (first
conjunct, the general mechanism: the write bypasses sequencing, so the CLI
pass — whose `update` always fires on an argument with no applied index —
overrides it); end to end, the resolved value is the CLI value in either
token order and whatever the profile value (remaining conjuncts). -/
theorem c1_cli_overrides_declared :
    (∀ (st : NodeState) (name : String) (v : PyVal) (t : Target) (a a2 : Argument),
      get_argument name true st = .ok (some t, st) →
      st.heap[Target.backing t]? = some a →
      argSetValue a (some v) = .ok a2 →
      parse_cfg_arg name v st
          = .ok ((), { st with heap := st.heap.set (Target.backing t) a2 })
        ∧ a2.last_idx = a.last_idx)
  ∧ c1_declared_run ["--config", "main", "--x", "2"] (.vint 1) = .ok (some (.vint 2))
  ∧ c1_declared_run ["--x", "2", "--config", "main"] (.vint 1) = .ok (some (.vint 2))
  ∧ c1_declared_run ["--config", "main", "--x", "2"] (.vint 99) = .ok (some (.vint 2)) := by
  refine ⟨?_, by decide!, by decide!, by decide!⟩
  intro st name v t a a2 hres ha hset
  constructor
  · simp [parse_cfg_arg, mbind_def, M.bind, hres, readArg, ha, liftE, hset, writeArg]
  · exact argSetValue_ok_last_idx a (some v) a2 hset

/-- C1 witness: the mechanism conjunct evaluated on `c1w_pre` — the profile
assignment to the declared `--x` leaves its last-applied index untouched. -/
theorem c1_cli_overrides_declared_witness :
    parse_cfg_arg "x" (.vint 1) c1w_pre
        = .ok ((), { c1w_pre with heap := c1w_pre.heap.set 3 c1w_argset })
  ∧ c1w_argset.last_idx = c1w_arg.last_idx :=
  c1_cli_overrides_declared.1 c1w_pre "x" (.vint 1) (.arg 3) c1w_arg c1w_argset (by decide!)
    (by decide!) (by decide!)
